import Mathlib

/-!
Shallow embedding of `scalyr_agent/third_party/tcollector/collectors/0/netstat.py`.

The script reads `/proc/net/sockstat` and `/proc/net/netstat`, parses them,
and prints metric lines.  Pure data (file contents, the pass timestamp, the
page size) are passed as parameters; printing is modelled by returning the
list of written lines together with their destination stream; exceptions that
the Python code may raise (IndexError, AssertionError, ValueError) are
modelled explicitly, carrying along the output that was flushed before the
raise.
-/

namespace Netstat

/-- Destination of a `print(...)` call.  `stdout`/`stderr` are the process
default streams; `cfgSuccess`/`cfgError` stand for explicitly supplied
`output_file_success` / `output_file_error` handles (used only when the
corresponding parameter of `parse_and_print_metrics` is not `None`). -/
inductive OutStream where
  | stdout
  | stderr
  | cfgSuccess
  | cfgError
  deriving DecidableEq

/-- One printed line, kept structured so that the timestamp and value fields
are directly visible; `render` below produces the exact text the Python
`print` statements format. -/
inductive OutLine where
  | sockstatMetric (metric : String) (ts : Int) (value : String) (tags : String)
  | netstatMetric (statstype metric : String) (ts : Int) (value : String) (tags : Option String)
  | errText (msg : String)
  deriving DecidableEq

/-- The text of a printed line, exactly as the `%`-format strings in the
source produce it.  For sockstat, `tags` already carries its leading space
(the callers pass e.g. `" type=tcp"`); for netstat a space is inserted only
when the tag string is truthy, mirroring `print_netstat`. -/
def render : OutLine → String
  | OutLine.sockstatMetric metric ts value tags =>
      "net.sockstat." ++ metric ++ " " ++ toString ts ++ " " ++ value ++ tags
  | OutLine.netstatMetric statstype metric ts value tags =>
      let tg := match tags with
        | none => ""
        | some t => if t = "" then "" else " " ++ t
      "net.stat." ++ statstype ++ "." ++ metric ++ " " ++ toString ts ++ " " ++ value ++ tg
  | OutLine.errText msg => msg

/-- A written line paired with the stream it went to. -/
abbrev Event := OutStream × OutLine

/-- Exceptions the script can raise while processing a pass. -/
inductive Exc where
  | indexError
  | assertionError
  | valueError
  deriving DecidableEq

/-! ### Character-level string helpers

These mirror the Python primitives the script relies on (`str.splitlines`,
`str.split()` with no argument, `int(...)`); they are written by structural
recursion over `List Char` so that concrete runs reduce inside the kernel. -/

/-- Consume an expected literal from the front of the input (used to embed
the fixed parts of the sockstat regular expression). -/
def dropLit : List Char → List Char → Option (List Char)
  | [], s => some s
  | _ :: _, [] => none
  | p :: ps, c :: cs => if c = p then dropLit ps cs else none

/-- One or more digits (greedy, like `\d+`); returns the digit run and the
rest of the input. -/
def digits1 (s : List Char) : Option (String × List Char) :=
  let d := s.takeWhile (fun c => c.isDigit)
  if d.isEmpty then none else some (String.mk d, s.dropWhile (fun c => c.isDigit))

/-- Numeric value of a digit run (what Python `int` returns on the strings
captured by `\d+`). -/
def digitsVal : List Char → Nat → Nat
  | [], acc => acc
  | c :: cs, acc => digitsVal cs (acc * 10 + (c.toNat - 48))

def digitsToNat (s : String) : Nat := digitsVal s.data 0

/-- Python `int(s)` on a token that contains no whitespace (all values fed to
`int` in this script come from whitespace-splitting, so surrounding blanks
cannot occur): an optional sign followed by one or more digits; anything else
raises `ValueError`, modelled as `none`. -/
def pyInt (s : String) : Option Int :=
  match s.data with
  | [] => none
  | '-' :: ds =>
      if ds = [] then none
      else if ds.all (fun c => c.isDigit) then some (-(digitsVal ds 0 : Int)) else none
  | '+' :: ds =>
      if ds = [] then none
      else if ds.all (fun c => c.isDigit) then some (digitsVal ds 0 : Int) else none
  | ds => if ds.all (fun c => c.isDigit) then some (digitsVal ds 0 : Int) else none

def splitlinesAux : List Char → List Char → List String
  | [], [] => []
  | [], acc => [String.mk acc.reverse]
  | '\n' :: cs, acc => String.mk acc.reverse :: splitlinesAux cs []
  | c :: cs, acc => splitlinesAux cs (c :: acc)

/-- Python `str.splitlines()` for `\n`-separated text (the only separator
appearing in the kernel files the script reads): splits on newlines without
producing a final empty piece for a trailing newline. -/
def pySplitlines (s : String) : List String := splitlinesAux s.data []

def tokensAux : List Char → List Char → List String
  | [], [] => []
  | [], acc => [String.mk acc.reverse]
  | c :: cs, acc =>
      if c.isWhitespace then
        match acc with
        | [] => tokensAux cs []
        | _ :: _ => String.mk acc.reverse :: tokensAux cs []
      else tokensAux cs (c :: acc)

/-- Python `str.split()` with no argument: split on runs of whitespace,
discarding empty tokens. -/
def tokens (s : String) : List String := tokensAux s.data []

/-! ### Sockstat parsing (`REGEXP` and `re.match`) -/

/-- The named groups captured by `REGEXP`.  All captures are digit strings;
`udp_pages` and `udplite_inuse` come from optional groups and may be absent
on older kernels. -/
structure SockstatRecord where
  tcp_inuse : String
  orphans : String
  tw_count : String
  tcp_sockets : String
  tcp_pages : String
  udp_inuse : String
  udp_pages : Option String
  udplite_inuse : Option String
  raw_inuse : String
  ip_frag_nqueues : String
  ip_frag_mem : String
  deriving DecidableEq

/-- A literal followed by a digit capture: the building block
`"<lit>(?P<name>\d+)"` of `REGEXP`. -/
def litDigits (lit : String) (s : List Char) : Option (String × List Char) :=
  match dropLit lit.data s with
  | none => none
  | some t => digits1 t

/-- Regex part `"sockets: used \d+\n"` (the capture is discarded by the script). -/
def matchSocketsLine (s : List Char) : Option (List Char) :=
  match litDigits "sockets: used " s with
  | none => none
  | some (_, t) => dropLit "\n".data t

/-- Regex part `"TCP: inuse (\d+) orphan (\d+) tw (\d+) alloc (\d+) mem (\d+)\n"`. -/
def matchTcpLine (s : List Char) :
    Option (String × String × String × String × String × List Char) :=
  match litDigits "TCP: inuse " s with
  | none => none
  | some (tcp_inuse, s) =>
    match litDigits " orphan " s with
    | none => none
    | some (orphans, s) =>
      match litDigits " tw " s with
      | none => none
      | some (tw_count, s) =>
        match litDigits " alloc " s with
        | none => none
        | some (tcp_sockets, s) =>
          match litDigits " mem " s with
          | none => none
          | some (tcp_pages, s) =>
            match dropLit "\n".data s with
            | none => none
            | some s => some (tcp_inuse, orphans, tw_count, tcp_sockets, tcp_pages, s)

/-- Regex part `"UDP: inuse (\d+)(?: mem (\d+))?\n"`.  The optional group is attempted
and the position is left untouched when it fails, which agrees with the
regex engine: whenever the group matches, the following `\n` either matches
too or the whole match fails, because the group starts with a space. -/
def matchUdpLine (s : List Char) : Option (String × Option String × List Char) :=
  match litDigits "UDP: inuse " s with
  | none => none
  | some (udp_inuse, s) =>
    let (udp_pages, s) :=
      match litDigits " mem " s with
      | some (v, t) => (some v, t)
      | none => (none, s)
    match dropLit "\n".data s with
    | none => none
    | some s => some (udp_inuse, udp_pages, s)

/-- Regex part `"(?:UDPLITE: inuse (\d+)\n)?"`: optional whole line; on any failure
inside the group the position is restored, as the regex engine does when it
discards the optional group. -/
def matchUdpliteLine (s : List Char) : Option String × List Char :=
  match litDigits "UDPLITE: inuse " s with
  | none => (none, s)
  | some (v, t) =>
    match dropLit "\n".data t with
    | none => (none, s)
    | some t => (some v, t)

/-- Regex part `"RAW: inuse (\d+)\n"`. -/
def matchRawLine (s : List Char) : Option (String × List Char) :=
  match litDigits "RAW: inuse " s with
  | none => none
  | some (raw_inuse, s) =>
    match dropLit "\n".data s with
    | none => none
    | some s => some (raw_inuse, s)

/-- Regex part `"FRAG: inuse (\d+) memory (\d+)\n"`. -/
def matchFragLine (s : List Char) : Option (String × String × List Char) :=
  match litDigits "FRAG: inuse " s with
  | none => none
  | some (nq, s) =>
    match litDigits " memory " s with
    | none => none
    | some (mem, s) =>
      match dropLit "\n".data s with
      | none => none
      | some s => some (nq, mem, s)

/-- Embeds `re.match(REGEXP, data)`: anchored at the start, matching a prefix of
`data` (trailing content is allowed, as with `re.match`); transcribed
line-group by line-group from the regular expression. -/
def matchSockstat (data : String) : Option SockstatRecord :=
  match matchSocketsLine data.data with
  | none => none
  | some s =>
    match matchTcpLine s with
    | none => none
    | some (tcp_inuse, orphans, tw_count, tcp_sockets, tcp_pages, s) =>
      match matchUdpLine s with
      | none => none
      | some (udp_inuse, udp_pages, s) =>
        match matchUdpliteLine s with
        | (udplite_inuse, s) =>
          match matchRawLine s with
          | none => none
          | some (raw_inuse, s) =>
            match matchFragLine s with
            | none => none
            | some (ip_frag_nqueues, ip_frag_mem, _) =>
              some { tcp_inuse, orphans, tw_count, tcp_sockets, tcp_pages, udp_inuse,
                     udp_pages, udplite_inuse, raw_inuse, ip_frag_nqueues, ip_frag_mem }

/-! ### Sockstat emission (`print_sockstat` and its call sites) -/

/-- The nested `print_sockstat` helper: skips `None` values, otherwise prints
one line to the stream given by its own `output_file_success` parameter
(which defaults to `sys.stdout` when the call site passes nothing). -/
def print_sockstat (ts : Int) (metric : String) (value : Option String)
    (tags : String) (dest : OutStream) : List Event :=
  match value with
  | none => []
  | some v => [(dest, OutLine.sockstatMetric metric ts v tags)]

/-- The block of `print_sockstat` calls in `parse_and_print_metrics`, in
source order.  `outFS` is the resolved outer success stream; note that the
`" type=ipfrag"` memory call passes no stream argument in the source, so it
goes to `sys.stdout` regardless of `outFS`, and that the ipfrag memory value
is the raw captured string (it is not multiplied by the page size). -/
def sockstatEvents (ts : Int) (m : SockstatRecord) (pageSize : Nat)
    (outFS : OutStream) : List Event :=
  List.flatten [
    print_sockstat ts "num_sockets" (some m.tcp_sockets) " type=tcp" outFS,
    print_sockstat ts "num_timewait" (some m.tw_count) "" outFS,
    print_sockstat ts "sockets_inuse" (some m.tcp_inuse) " type=tcp" outFS,
    print_sockstat ts "sockets_inuse" (some m.udp_inuse) " type=udp" outFS,
    print_sockstat ts "sockets_inuse" m.udplite_inuse " type=udplite" outFS,
    print_sockstat ts "sockets_inuse" (some m.raw_inuse) " type=raw" outFS,
    print_sockstat ts "num_orphans" (some m.orphans) "" outFS,
    print_sockstat ts "memory" (some (toString (digitsToNat m.tcp_pages * pageSize))) " type=tcp" outFS,
    (match m.udp_pages with
     | some up => print_sockstat ts "memory" (some (toString (digitsToNat up * pageSize))) " type=udp" outFS
     | none => []),
    print_sockstat ts "memory" (some m.ip_frag_mem) " type=ipfrag" OutStream.stdout,
    print_sockstat ts "ipfragqueues" (some m.ip_frag_nqueues) "" outFS
  ]

/-! ### Netstat tables (`known_netstatstypes` and `known_netstats`) -/

/-- Table `known_netstatstypes`: raw section header token, logical section name.
Kept in source order (an `OrderedDict` in the script). -/
def knownNetstatTypes : List (String × String) := [
  ("TcpExt:", "tcp"),
  ("IpExt:", "ip"),
  ("Ip:", "ip"),
  ("Icmp:", "icmp"),
  ("IcmpMsg:", "icmpmsg"),
  ("Tcp:", "tcp"),
  ("Udp:", "udp"),
  ("UdpLite:", "udplite"),
  ("Arista:", "arista")
]

/-- Lookup in `known_netstatstypes` (Python `dict` membership / indexing). -/
def lookupType (t : String) : Option String :=
  match knownNetstatTypes.find? (fun p => p.1 = t) with
  | some p => some p.2
  | none => none

/-- Table `known_netstats`: raw counter name, metric suffix, optional tag string.
Transcribed entry-for-entry, in source order. -/
def knownNetstats : List (String × String × Option String) := [
  ("SyncookiesSent", "syncookies", some "type=sent"),
  ("SyncookiesRecv", "syncookies", some "type=received"),
  ("SyncookiesFailed", "syncookies", some "type=failed"),
  ("OfoPruned", "memory.prune", some "type=drop_ofo_queue"),
  ("RcvPruned", "memory.prune", some "type=drop_received"),
  ("DelayedACKs", "delayedack", some "type=sent"),
  ("DelayedACKLocked", "delayedack", some "type=locked"),
  ("DelayedACKLost", "delayedack", some "type=lost"),
  ("ListenOverflows", "failed_accept", some "reason=full_acceptq"),
  ("ListenDrops", "failed_accept", some "reason=other"),
  ("TCPRenoRecovery", "packetloss.recovery", some "type=fast_retransmit"),
  ("TCPSackRecovery", "packetloss.recovery", some "type=sack"),
  ("TCPFACKReorder", "reording", some "detectedby=fack"),
  ("TCPSACKReorder", "reording", some "detectedby=sack"),
  ("TCPRenoReorder", "reording", some "detectedby=fast_retransmit"),
  ("TCPTSReorder", "reording", some "detectedby=timestamp"),
  ("TCPFullUndo", "congestion.recovery", some "type=full_undo"),
  ("TCPPartialUndo", "congestion.recovery", some "type=hoe_heuristic"),
  ("TCPDSACKUndo", "congestion.recovery", some "type=sack"),
  ("TCPLossUndo", "congestion.recovery", some "type=ack"),
  ("TCPAbortOnSyn", "abort", some "type=unexpected_syn"),
  ("TCPAbortOnData", "abort", some "type=data_after_fin_wait1"),
  ("TCPAbortOnClose", "abort", some "type=data_after_close"),
  ("TCPAbortOnMemory", "abort", some "type=out_of_memory"),
  ("TCPAbortOnTimeout", "abort", some "type=timeout"),
  ("TCPAbortOnLinger", "abort", some "type=linger"),
  ("TCPAbortFailed", "abort.failed", none),
  ("TCPMemoryPressures", "memory.pressure", none),
  ("TCPSACKDiscard", "invalid_sack", some "type=invalid"),
  ("TCPDSACKIgnoredOld", "invalid_sack", some "type=retransmit"),
  ("TCPDSACKIgnoredNoUndo", "invalid_sack", some "type=olddup"),
  ("TCPBacklogDrop", "receive.queue.full", none),
  ("OutRsts", "resets", some "direction=out"),
  ("InErrs", "errors", some "direction=in")
]

/-! ### Netstat grouping (the first `for` loop) -/

/-- Type of `statsdikt`: logical section name, accumulated token lines (an
`OrderedDict` of lists in the script, kept in insertion order). -/
abbrev SectionsDict := List (String × List (List String))

/-- Embeds `statsdikt.setdefault(key, []).append(line)`. -/
def sdAppend (d : SectionsDict) (k : String) (v : List String) : SectionsDict :=
  match d with
  | [] => [(k, [v])]
  | (k2, vs) :: rest => if k2 = k then (k2, vs ++ [v]) :: rest else (k2, vs) :: sdAppend rest k v

/-- The warning printed for an unknown section header: the script formats the
token list and the whole file content with `%r`; the exact quoting of `repr`
is abstracted, the message still carries both. -/
def unrecogMsg (lineToks : List String) (fileContent : String) : String :=
  "Unrecoginized line in /proc/net/netstat: " ++ toString lineToks ++
    " (file=" ++ fileContent ++ ")"

/-- The first loop over `stats.splitlines()`: tokenizes each line, skips
`"MPTcpExt:"` silently, warns (to the error stream) and skips unknown
headers, and groups known lines by logical section.  `line[0]` on an empty
token list raises `IndexError`, which aborts the loop: the triple returned is
(printed events, `statsdikt` so far, raised exception if any). -/
def netstatGroup (fileContent : String) (errDest : OutStream) :
    List String → SectionsDict → List Event × SectionsDict × Option Exc
  | [], d => ([], d, none)
  | l :: rest, d =>
    match tokens l with
    | [] => ([], d, some Exc.indexError)
    | t0 :: tr =>
      if t0 = "MPTcpExt:" then netstatGroup fileContent errDest rest d
      else
        match lookupType t0 with
        | some sec => netstatGroup fileContent errDest rest (sdAppend d sec tr)
        | none =>
          match netstatGroup fileContent errDest rest d with
          | (es, d2, ex) =>
            ((errDest, OutLine.errText (unrecogMsg (t0 :: tr) fileContent)) :: es, d2, ex)

/-! ### Netstat emission (the second `for` loop) -/

/-- Per-section counter map: raw counter name, raw value string.  Built with
Python `dict` semantics (first insertion fixes the position, a later
assignment to the same key overwrites in place). -/
abbrev CounterDict := List (String × String)

def dictGet (d : CounterDict) (k : String) : Option String :=
  match d with
  | [] => none
  | (k2, v) :: rest => if k2 = k then some v else dictGet rest k

def dictSet (d : CounterDict) (k v : String) : CounterDict :=
  match d with
  | [] => [(k, v)]
  | (k2, v2) :: rest => if k2 = k then (k2, v) :: rest else (k2, v2) :: dictSet rest k v

/-- Embeds `dict(list(zip(names, vals)))`. -/
def mkDict (pairs : List (String × String)) : CounterDict :=
  pairs.foldl (fun d p => dictSet d p.1 p.2) []

/-- The ListenDrops fixup: `stats["ListenDrops"] = int(value) -
int(stats.get("ListenOverflows", 0))` — run only when `"ListenDrops"` is
present; `int` on a malformed token raises `ValueError`.  When
`"ListenOverflows"` is absent, `stats.get` supplies the integer `0`. -/
def applyListenDropsFix (d : CounterDict) : Except Exc CounterDict :=
  match dictGet d "ListenDrops" with
  | none => Except.ok d
  | some v =>
    match pyInt v with
    | none => Except.error Exc.valueError
    | some vi =>
      match dictGet d "ListenOverflows" with
      | none => Except.ok (dictSet d "ListenDrops" (toString (vi - 0)))
      | some o =>
        match pyInt o with
        | none => Except.error Exc.valueError
        | some oi => Except.ok (dictSet d "ListenDrops" (toString (vi - oi)))

/-- The inner loop over `known_netstats`: counters present in the per-section
dict are printed through `print_netstat` (to the resolved success stream),
missing ones are skipped silently. -/
def emitSection (ts : Int) (statstype : String) (d : CounterDict)
    (dest : OutStream) : List Event :=
  knownNetstats.filterMap (fun e =>
    match dictGet d e.1 with
    | some v => some (dest, OutLine.netstatMetric statstype e.2.1 ts v e.2.2)
    | none => none)

/-- One iteration of the second `for` loop: `assert len(stats) == 2`, zip the
header tokens with the value tokens into a dict, apply the ListenDrops
fixup, then emit.  A failing assert or a `ValueError` aborts with no output
from this section. -/
def processSection (ts : Int) (statstype : String) (ls : List (List String))
    (dest : OutStream) : Except Exc (List Event) :=
  match ls with
  | [names, vals] =>
    match applyListenDropsFix (mkDict (names.zip vals)) with
    | Except.error e => Except.error e
    | Except.ok d => Except.ok (emitSection ts statstype d dest)
  | _ => Except.error Exc.assertionError

/-- The second `for` loop over `statsdikt.items()`: sections are processed in
insertion order; an exception stops the loop, keeping the events already
printed by earlier sections. -/
def processSections (ts : Int) (dest : OutStream) :
    SectionsDict → List Event × Option Exc
  | [] => ([], none)
  | (statstype, ls) :: rest =>
    match processSection ts statstype ls dest with
    | Except.error e => ([], some e)
    | Except.ok evs =>
      match processSections ts dest rest with
      | (es, ex) => (evs ++ es, ex)

/-! ### `parse_and_print_metrics` -/

/-- The error line `"Cannot parse sockstat: %r" % data` (quoting of `%r`
abstracted; the raw content is carried verbatim). -/
def cannotParseMsg (data : String) : String := "Cannot parse sockstat: " ++ data

/-- Embeds `output_file_success = output_file_success or sys.stdout`. -/
def resolveSuccess (haveCfgSuccess : Bool) : OutStream :=
  if haveCfgSuccess then OutStream.cfgSuccess else OutStream.stdout

/-- Embeds `output_file_error = output_file_error or sys.stderr`. -/
def resolveError (haveCfgError : Bool) : OutStream :=
  if haveCfgError then OutStream.cfgError else OutStream.stderr

/-- Result of one call of `parse_and_print_metrics`: the lines printed (in
order, including those flushed before an exception), the Python return value
(`13` on sockstat parse failure, `None` otherwise), and the exception that
escaped the call, if any. -/
structure PassResult where
  events : List Event
  retval : Option Nat
  exc : Option Exc
  deriving DecidableEq

/-- Embeds `parse_and_print_metrics(f_netstat, f_sockstat, output_file_success,
output_file_error)`.  The two file handles are replaced by the contents read
from them this pass, `ts` is the `int(time.time())` taken at the start of the
pass, `pageSize` is `resource.getpagesize()`; `haveCfgSuccess` /
`haveCfgError` tell whether the optional stream parameters were supplied
(`output_file_success or sys.stdout` resolves them otherwise). -/
def parse_and_print_metrics (sockstatData netstatData : String) (ts : Int)
    (pageSize : Nat) (haveCfgSuccess haveCfgError : Bool) : PassResult :=
  let outFS := resolveSuccess haveCfgSuccess
  let outFE := resolveError haveCfgError
  match matchSockstat sockstatData with
  | none =>
    { events := [(outFE, OutLine.errText (cannotParseMsg sockstatData))],
      retval := some 13, exc := none }
  | some m =>
    let sockEvents := sockstatEvents ts m pageSize outFS
    match netstatGroup netstatData outFE (pySplitlines netstatData) [] with
    | (grpEvents, d, someExc) =>
      match someExc with
      | some e => { events := sockEvents ++ grpEvents, retval := none, exc := some e }
      | none =>
        match processSections ts outFS d with
        | (emitEvents, ex) =>
          { events := sockEvents ++ grpEvents ++ emitEvents, retval := none, exc := ex }

/-! ### `main` and its loop -/

/-- The environment `main` runs against: whether the two `/proc` files could
be opened at startup, and per-iteration observations (the parent-death check
`os.getppid() == 1`, the file contents read back after `seek(0)`, and the
`int(time.time())` sample). -/
structure Env where
  openOk : Bool
  ppidIsOne : Nat → Bool
  sockstatAt : Nat → String
  netstatAt : Nat → String
  timeAt : Nat → Int
  pageSize : Nat

/-- How the process ends: an explicit exit code (`return 13` from `main`, or
`sys.exit(1)` when the parent died), or an uncaught exception escaping the
loop (the interpreter then terminates the process with a traceback). -/
inductive MainOutcome where
  | exitCode (c : Nat)
  | crashed (e : Exc)
  deriving DecidableEq

/-- One iteration of the `while True` loop: check `os.getppid() == 1` first,
then run `parse_and_print_metrics` with default output streams; an exception
escaping the call terminates the process. -/
inductive IterResult where
  | terminated (o : MainOutcome)
  | completed (events : List Event)
  deriving DecidableEq

def loopIter (env : Env) (n : Nat) : IterResult :=
  if env.ppidIsOne n then IterResult.terminated (MainOutcome.exitCode 1)
  else
    match parse_and_print_metrics (env.sockstatAt n) (env.netstatAt n)
        (env.timeAt n) env.pageSize false false with
    | r =>
      match r.exc with
      | some e => IterResult.terminated (MainOutcome.crashed e)
      | none => IterResult.completed r.events

/-- The loop, fuel-bounded from iteration `n`: `none` means still running
after `fuel` more iterations. -/
def loopRun (env : Env) : Nat → Nat → Option MainOutcome
  | _, 0 => none
  | n, fuel + 1 =>
    match loopIter env n with
    | IterResult.terminated o => some o
    | IterResult.completed _ => loopRun env (n + 1) fuel

/-- Embeds `main()`: on startup the two source files are opened; failure returns
`13` ("ask tcollector to not re-start us") before the loop is entered. -/
def mainOutcome (env : Env) (fuel : Nat) : Option MainOutcome :=
  if env.openOk then loopRun env 0 fuel else some (MainOutcome.exitCode 13)

/-- Timestamp field of a printed line, when it is a metric line. -/
def lineTs : OutLine → Option Int
  | OutLine.sockstatMetric _ t _ _ => some t
  | OutLine.netstatMetric _ _ t _ _ => some t
  | OutLine.errText _ => none

/-! ### Concrete sample inputs -/

/-- The sockstat content of the end-to-end sample (spec §8): TCP line with
all fields, UDP line without the optional `mem` field, no UDP-Lite line. -/
def sockstatSample : String :=
  "sockets: used 42\nTCP: inuse 5 orphan 1 tw 2 alloc 5 mem 10\nUDP: inuse 3\nRAW: inuse 0\nFRAG: inuse 0 memory 0\n"

/-- Netstat content holding header/data line pairs for both `TcpExt:` and
`Tcp:` (which alias to the same logical section `"tcp"`), preceded by an
intact `Udp:` section. -/
def netstatAliasSample : String :=
  "Udp: InErrs\nUdp: 5\nTcpExt: ListenDrops\nTcpExt: 7\nTcp: OutRsts\nTcp: 1\n"

/-- A run whose netstat file always holds a single `TcpExt:` line, so the
logical section `"tcp"` accumulates one line instead of two. -/
def envOddSection : Env :=
  { openOk := true, ppidIsOne := fun _ => false,
    sockstatAt := fun _ => sockstatSample,
    netstatAt := fun _ => "TcpExt: ListenDrops\n",
    timeAt := fun _ => 1000, pageSize := 4096 }

/-- A run whose netstat file always contains a trailing empty line. -/
def envEmptyLine : Env :=
  { openOk := true, ppidIsOne := fun _ => false,
    sockstatAt := fun _ => sockstatSample,
    netstatAt := fun _ => "TcpExt: InErrs\nTcpExt: 4\n\n",
    timeAt := fun _ => 1000, pageSize := 4096 }

/-- A run where the source files could not be opened at startup. -/
def envOpenFail : Env :=
  { openOk := false, ppidIsOne := fun _ => false,
    sockstatAt := fun _ => "", netstatAt := fun _ => "",
    timeAt := fun _ => 0, pageSize := 4096 }

/-- A run whose parent process has died before the first pass. -/
def envParentDead : Env :=
  { openOk := true, ppidIsOne := fun _ => true,
    sockstatAt := fun _ => sockstatSample, netstatAt := fun _ => "",
    timeAt := fun _ => 0, pageSize := 4096 }

/-! ### Helper lemmas -/

theorem dictGet_dictSet_same (d : CounterDict) (k v : String) :
    dictGet (dictSet d k v) k = some v := by
  induction d with
  | nil => simp [dictSet, dictGet]
  | cons p rest ih =>
    by_cases h : p.1 = k
    · simp [dictSet, dictGet, h]
    · simp [dictSet, dictGet, h, ih]

theorem mem_print_sockstat_ts (ts : Int) (metric : String) (v : Option String)
    (tags : String) (dest : OutStream) (ev : Event)
    (h : ev ∈ print_sockstat ts metric v tags dest) : lineTs ev.2 = some ts := by
  cases v with
  | none => simp [print_sockstat] at h
  | some x =>
    simp [print_sockstat] at h
    subst h
    rfl

theorem mem_sockstatEvents_ts (ts : Int) (m : SockstatRecord) (ps : Nat)
    (o : OutStream) (ev : Event) (h : ev ∈ sockstatEvents ts m ps o) :
    lineTs ev.2 = some ts := by
  simp only [sockstatEvents, List.mem_flatten] at h
  obtain ⟨l, hl, hev⟩ := h
  simp only [List.mem_cons, List.not_mem_nil, or_false] at hl
  rcases hl with rfl | rfl | rfl | rfl | rfl | rfl | rfl | rfl | rfl | rfl | rfl
  · exact mem_print_sockstat_ts _ _ _ _ _ _ hev
  · exact mem_print_sockstat_ts _ _ _ _ _ _ hev
  · exact mem_print_sockstat_ts _ _ _ _ _ _ hev
  · exact mem_print_sockstat_ts _ _ _ _ _ _ hev
  · exact mem_print_sockstat_ts _ _ _ _ _ _ hev
  · exact mem_print_sockstat_ts _ _ _ _ _ _ hev
  · exact mem_print_sockstat_ts _ _ _ _ _ _ hev
  · exact mem_print_sockstat_ts _ _ _ _ _ _ hev
  · cases hup : m.udp_pages with
    | none => rw [hup] at hev; simp at hev
    | some up => rw [hup] at hev; exact mem_print_sockstat_ts _ _ _ _ _ _ hev
  · exact mem_print_sockstat_ts _ _ _ _ _ _ hev
  · exact mem_print_sockstat_ts _ _ _ _ _ _ hev

theorem netstatGroup_events_errText (fc : String) (ed : OutStream) :
    ∀ (ls : List String) (d : SectionsDict) (ev : Event),
      ev ∈ (netstatGroup fc ed ls d).1 → ∃ s, ev.2 = OutLine.errText s := by
  intro ls
  induction ls with
  | nil => intro d ev h; simp [netstatGroup] at h
  | cons l rest ih =>
    intro d ev h
    rcases ht : tokens l with _ | ⟨t0, tr⟩
    · simp only [netstatGroup, ht] at h; simp at h
    · simp only [netstatGroup, ht] at h
      by_cases hm : t0 = "MPTcpExt:"
      · rw [if_pos hm] at h; exact ih _ _ h
      · rw [if_neg hm] at h
        rcases hl : lookupType t0 with _ | sec
        · rw [hl] at h
          rcases hr : netstatGroup fc ed rest d with ⟨es, d2, ex⟩
          rw [hr] at h
          rcases List.mem_cons.mp h with rfl | h2
          · exact ⟨_, rfl⟩
          · exact ih d ev (by rw [hr]; exact h2)
        · rw [hl] at h; exact ih _ _ h

theorem netstatGroup_exc_of_empty_line (fc : String) (ed : OutStream) :
    ∀ (ls : List String) (d : SectionsDict),
      (∃ l ∈ ls, tokens l = []) →
      (netstatGroup fc ed ls d).2.2 = some Exc.indexError := by
  intro ls
  induction ls with
  | nil => rintro d ⟨l, hl, _⟩; simp at hl
  | cons l rest ih =>
    rintro d ⟨x, hx, hxe⟩
    rcases ht : tokens l with _ | ⟨t0, tr⟩
    · simp only [netstatGroup, ht]
    · have hx2 : x ∈ rest := by
        rcases List.mem_cons.mp hx with rfl | h2
        · rw [ht] at hxe; cases hxe
        · exact h2
      simp only [netstatGroup, ht]
      by_cases hm : t0 = "MPTcpExt:"
      · rw [if_pos hm]; exact ih _ ⟨x, hx2, hxe⟩
      · rw [if_neg hm]
        rcases hl : lookupType t0 with _ | sec
        · rcases hr : netstatGroup fc ed rest d with ⟨es, d2, ex⟩
          have := ih d ⟨x, hx2, hxe⟩
          rw [hr] at this
          simp only [hr]
          exact this
        · exact ih _ ⟨x, hx2, hxe⟩

theorem processSection_not_two (ts : Int) (st : String) (ls : List (List String))
    (dest : OutStream) (h : ls.length ≠ 2) :
    processSection ts st ls dest = Except.error Exc.assertionError := by
  rcases ls with _ | ⟨a, _ | ⟨b, _ | ⟨c, tl⟩⟩⟩
  · rfl
  · rfl
  · exact absurd rfl h
  · rfl

theorem emitSection_mem (ts : Int) (st : String) (d : CounterDict)
    (dest : OutStream) (stat metric : String) (tags : Option String) (v : String)
    (hmem : (stat, metric, tags) ∈ knownNetstats) (hv : dictGet d stat = some v) :
    (dest, OutLine.netstatMetric st metric ts v tags) ∈ emitSection ts st d dest := by
  refine List.mem_filterMap.mpr ⟨(stat, metric, tags), hmem, ?_⟩
  simp [hv]

theorem mem_emitSection_ts (ts : Int) (st : String) (d : CounterDict)
    (dest : OutStream) (ev : Event) (h : ev ∈ emitSection ts st d dest) :
    lineTs ev.2 = some ts := by
  obtain ⟨e, _, he⟩ := List.mem_filterMap.mp h
  rcases hd : dictGet d e.1 with _ | v
  · rw [hd] at he; cases he
  · rw [hd] at he
    cases he
    rfl

theorem processSection_ok_mem_ts (ts : Int) (st : String) (ls : List (List String))
    (dest : OutStream) (evs : List Event) (ev : Event)
    (hs : processSection ts st ls dest = Except.ok evs) (h : ev ∈ evs) :
    lineTs ev.2 = some ts := by
  rcases ls with _ | ⟨names, _ | ⟨vals, _ | ⟨x, tl⟩⟩⟩
  · cases hs
  · cases hs
  · simp only [processSection] at hs
    rcases hf : applyListenDropsFix (mkDict (names.zip vals)) with e | dd
    · rw [hf] at hs; cases hs
    · rw [hf] at hs
      cases hs
      exact mem_emitSection_ts _ _ _ _ _ h
  · cases hs

theorem mem_processSections_ts (ts : Int) (dest : OutStream) :
    ∀ (d : SectionsDict) (ev : Event),
      ev ∈ (processSections ts dest d).1 → lineTs ev.2 = some ts := by
  intro d
  induction d with
  | nil => intro ev h; simp [processSections] at h
  | cons p rest ih =>
    intro ev h
    rw [processSections] at h
    rcases hs : processSection ts p.1 p.2 dest with e | evs
    · rw [hs] at h; simp at h
    · rw [hs] at h
      rcases hr : processSections ts dest rest with ⟨es, ex⟩
      rw [hr] at h
      rcases List.mem_append.mp h with h2 | h2
      · exact processSection_ok_mem_ts ts p.1 p.2 dest evs ev hs h2
      · exact ih ev (by rw [hr]; exact h2)

theorem processSections_isSome_of_bad (ts : Int) (dest : OutStream) :
    ∀ (d : SectionsDict), (∃ p ∈ d, p.2.length ≠ 2) →
      ((processSections ts dest d).2).isSome := by
  intro d
  induction d with
  | nil => rintro ⟨p, hp, _⟩; simp at hp
  | cons hd tl ih =>
    rintro ⟨p, hp, hlen⟩
    rw [processSections]
    rcases List.mem_cons.mp hp with rfl | hp2
    · rw [processSection_not_two ts p.1 p.2 dest hlen]
      rfl
    · rcases hs : processSection ts hd.1 hd.2 dest with e | evs
      · rfl
      · rcases hr : processSections ts dest tl with ⟨es, ex⟩
        have := ih ⟨p, hp2, hlen⟩
        rw [hr] at this
        simpa using this

theorem processSections_abort_at (ts : Int) (dest : OutStream) :
    ∀ (d1 : SectionsDict) (sec : String) (ss : List (List String))
      (d2 : SectionsDict) (evs1 : List Event),
      processSections ts dest d1 = (evs1, none) → ss.length ≠ 2 →
      processSections ts dest (d1 ++ (sec, ss) :: d2) =
        (evs1, some Exc.assertionError) := by
  intro d1
  induction d1 with
  | nil =>
    intro sec ss d2 evs1 h1 h2
    rw [processSections] at h1
    cases h1
    simp only [List.nil_append]
    rw [processSections, processSection_not_two ts sec ss dest h2]
  | cons hd tl ih =>
    intro sec ss d2 evs1 h1 h2
    rw [processSections] at h1
    rcases hs : processSection ts hd.1 hd.2 dest with e | evs
    · rw [hs] at h1; cases h1
    · rw [hs] at h1
      rcases hr : processSections ts dest tl with ⟨es, ex⟩
      rw [hr] at h1
      cases h1
      simp only [List.cons_append]
      rw [processSections, hs, ih sec ss d2 es hr h2]

theorem pass_badsock_eq (sock net : String) (ts : Int) (ps : Nat) (b1 b2 : Bool)
    (hm : matchSockstat sock = none) :
    parse_and_print_metrics sock net ts ps b1 b2 =
      { events := [(resolveError b2, OutLine.errText (cannotParseMsg sock))],
        retval := some 13, exc := none } := by
  simp only [parse_and_print_metrics, hm]

theorem pass_groupexc_eq (sock net : String) (ts : Int) (ps : Nat) (b1 b2 : Bool)
    (m : SockstatRecord) (ges : List Event) (d : SectionsDict) (e : Exc)
    (hm : matchSockstat sock = some m)
    (hg : netstatGroup net (resolveError b2) (pySplitlines net) [] = (ges, d, some e)) :
    parse_and_print_metrics sock net ts ps b1 b2 =
      { events := sockstatEvents ts m ps (resolveSuccess b1) ++ ges,
        retval := none, exc := some e } := by
  simp only [parse_and_print_metrics, hm, hg]

theorem pass_ok_eq (sock net : String) (ts : Int) (ps : Nat) (b1 b2 : Bool)
    (m : SockstatRecord) (ges : List Event) (d : SectionsDict)
    (ees : List Event) (ex : Option Exc)
    (hm : matchSockstat sock = some m)
    (hg : netstatGroup net (resolveError b2) (pySplitlines net) [] = (ges, d, none))
    (he : processSections ts (resolveSuccess b1) d = (ees, ex)) :
    parse_and_print_metrics sock net ts ps b1 b2 =
      { events := sockstatEvents ts m ps (resolveSuccess b1) ++ ges ++ ees,
        retval := none, exc := ex } := by
  simp only [parse_and_print_metrics, hm, hg, he]

theorem loopIter_crash (env : Env) (n : Nat) (e : Exc)
    (hp : env.ppidIsOne n = false)
    (hx : (parse_and_print_metrics (env.sockstatAt n) (env.netstatAt n)
        (env.timeAt n) env.pageSize false false).exc = some e) :
    loopIter env n = IterResult.terminated (MainOutcome.crashed e) := by
  simp only [loopIter, hp, hx]
  rfl

theorem loopRun_stop (env : Env) (n fuel : Nat) (o : MainOutcome)
    (h : loopIter env n = IterResult.terminated o) :
    loopRun env n (fuel + 1) = some o := by
  rw [loopRun, h]

/-! ### Claims -/

/-- C1 counterexample: the claim says that after a sockstat parse failure
the pass still performs netstat parsing and emission.  False: the function
returns `13` right after printing the error line.  The netstat content used
here yields two `net.stat.tcp` metrics when the sockstat content parses
(second conjunct), yet with unparsable sockstat content the entire pass
output is the single error line and nothing netstat-derived (first
conjunct). -/
theorem c1_counterexample :
    parse_and_print_metrics "garbage" "TcpExt: InErrs OutRsts\nTcpExt: 4 2\n"
        1000 4096 false false =
      { events := [(OutStream.stderr, OutLine.errText "Cannot parse sockstat: garbage")],
        retval := some 13, exc := none } ∧
    (OutStream.stdout, OutLine.netstatMetric "tcp" "errors" 1000 "4" (some "direction=in")) ∈
      (parse_and_print_metrics sockstatSample "TcpExt: InErrs OutRsts\nTcpExt: 4 2\n"
        1000 4096 false false).events := by
  constructor
  · decide
  · decide

/-- C1 (amended): for every pass in which the sockstat content does not
match the sockstat grammar, `parse_and_print_metrics` logs the raw content
to the error stream, emits no sockstat-derived metrics, and returns `13`
immediately, performing no netstat parsing and no netstat metric emission
for that pass. -/
theorem c1_amended_sockstat_failure_skips_netstat (sock net : String)
    (ts : Int) (ps : Nat) (b1 b2 : Bool) (hm : matchSockstat sock = none) :
    parse_and_print_metrics sock net ts ps b1 b2 =
      { events := [(resolveError b2, OutLine.errText (cannotParseMsg sock))],
        retval := some 13, exc := none } :=
  pass_badsock_eq sock net ts ps b1 b2 hm

/-- C1 witness: the amended theorem at concrete unparsable content. -/
theorem c1_amended_witness :
    parse_and_print_metrics "garbage" "TcpExt: InErrs OutRsts\nTcpExt: 4 2\n"
        1000 4096 false false =
      { events := [(OutStream.stderr, OutLine.errText (cannotParseMsg "garbage"))],
        retval := some 13, exc := none } :=
  c1_amended_sockstat_failure_skips_netstat "garbage"
    "TcpExt: InErrs OutRsts\nTcpExt: 4 2\n" 1000 4096 false false (by decide)

/-- C2 counterexample: the claim says a netstat section with a line count
other than two does not terminate the process and the loop performs its next
scheduled pass.  False: in this run the netstat file always holds a single
`TcpExt:` line (section `"tcp"` gets one line, not two); were the claim
true, the loop would still be running after five iterations (`none`), but
the assertion failure escapes `parse_and_print_metrics` during the very
first pass and the process crashes. -/
theorem c2_counterexample :
    mainOutcome envOddSection 5 = some (MainOutcome.crashed Exc.assertionError) := by
  decide

/-- C2 (amended): a pass whose grouped netstat sections include one with a
line count other than two aborts the netstat emission of that pass with an
uncaught exception escaping `parse_and_print_metrics`; the process
terminates then and the collection loop performs no further pass. -/
theorem c2_amended_odd_section_terminates (env : Env) (n fuel : Nat)
    (hp : env.ppidIsOne n = false)
    (hm : (matchSockstat (env.sockstatAt n)).isSome = true)
    (hg : (netstatGroup (env.netstatAt n) OutStream.stderr
        (pySplitlines (env.netstatAt n)) []).2.2 = none)
    (hbad : ∃ p ∈ (netstatGroup (env.netstatAt n) OutStream.stderr
        (pySplitlines (env.netstatAt n)) []).2.1, p.2.length ≠ 2) :
    ∃ e, loopIter env n = IterResult.terminated (MainOutcome.crashed e) ∧
      loopRun env n (fuel + 1) = some (MainOutcome.crashed e) := by
  rcases hmm : matchSockstat (env.sockstatAt n) with _ | m
  · rw [hmm] at hm; cases hm
  · rcases hG : netstatGroup (env.netstatAt n) OutStream.stderr
        (pySplitlines (env.netstatAt n)) [] with ⟨ges, d, gex⟩
    rw [hG] at hg hbad
    have hg2 : gex = none := hg
    subst hg2
    have hbad2 : ∃ p ∈ d, p.2.length ≠ 2 := hbad
    have hex := processSections_isSome_of_bad (env.timeAt n) (resolveSuccess false) d hbad2
    rcases hE : processSections (env.timeAt n) (resolveSuccess false) d with ⟨ees, ex⟩
    rw [hE] at hex
    rcases ex with _ | e
    · simp at hex
    · have hG2 : netstatGroup (env.netstatAt n) (resolveError false)
          (pySplitlines (env.netstatAt n)) [] = (ges, d, none) := hG
      have hpass := pass_ok_eq (env.sockstatAt n) (env.netstatAt n) (env.timeAt n)
        env.pageSize false false m ges d ees (some e) hmm hG2 hE
      have hx : (parse_and_print_metrics (env.sockstatAt n) (env.netstatAt n)
          (env.timeAt n) env.pageSize false false).exc = some e := by rw [hpass]
      have hi := loopIter_crash env n e hp hx
      exact ⟨e, hi, loopRun_stop env n fuel _ hi⟩

/-- C2 witness: the amended theorem at the concrete single-line-section
run. -/
theorem c2_amended_witness :
    ∃ e, loopIter envOddSection 0 = IterResult.terminated (MainOutcome.crashed e) ∧
      loopRun envOddSection 0 1 = some (MainOutcome.crashed e) :=
  c2_amended_odd_section_terminates envOddSection 0 0 rfl (by decide) (by decide)
    (by decide)

/-- C3: for every parsed netstat logical section whose counter dict contains
`"ListenDrops"`, the emitted ListenDrops metric (suffix `failed_accept`, tag
`reason=other`) carries the raw ListenDrops value minus the ListenOverflows value of the same section, `0` standing in when ListenOverflows is absent. -/
theorem c3_listendrops_subtracts_overflows (ts : Int) (st : String)
    (names vals : List String) (dest : OutStream) (v o : String) (vi oi : Int)
    (hv : dictGet (mkDict (names.zip vals)) "ListenDrops" = some v)
    (hvi : pyInt v = some vi)
    (ho : (dictGet (mkDict (names.zip vals)) "ListenOverflows" = none ∧ oi = 0) ∨
          (dictGet (mkDict (names.zip vals)) "ListenOverflows" = some o ∧
            pyInt o = some oi)) :
    ∃ evs, processSection ts st [names, vals] dest = Except.ok evs ∧
      (dest, OutLine.netstatMetric st "failed_accept" ts (toString (vi - oi))
        (some "reason=other")) ∈ evs := by
  have hfix : applyListenDropsFix (mkDict (names.zip vals)) =
      Except.ok (dictSet (mkDict (names.zip vals)) "ListenDrops" (toString (vi - oi))) := by
    rcases ho with ⟨hnone, rfl⟩ | ⟨hsome, hoi⟩
    · simp only [applyListenDropsFix, hv, hvi, hnone]
    · simp only [applyListenDropsFix, hv, hvi, hsome, hoi]
  refine ⟨emitSection ts st (dictSet (mkDict (names.zip vals)) "ListenDrops"
      (toString (vi - oi))) dest, ?_, ?_⟩
  · simp only [processSection, hfix]
  · exact emitSection_mem ts st _ dest "ListenDrops" "failed_accept"
      (some "reason=other") _ (by decide) (dictGet_dictSet_same _ _ _)

/-- C3 witness: the concrete example from the spec — section `"tcp"`, header line
`ListenOverflows ListenDrops`, value line `3 10`: the emitted corrected
ListenDrops value is `7`. -/
theorem c3_witness :
    ∃ evs, processSection 1000 "tcp" [["ListenOverflows", "ListenDrops"], ["3", "10"]]
        OutStream.stdout = Except.ok evs ∧
      (OutStream.stdout, OutLine.netstatMetric "tcp" "failed_accept" 1000 "7"
        (some "reason=other")) ∈ evs := by
  have h := c3_listendrops_subtracts_overflows 1000 "tcp"
    ["ListenOverflows", "ListenDrops"] ["3", "10"] OutStream.stdout "10" "3" 10 3
    (by decide) (by decide) (Or.inr ⟨by decide, by decide⟩)
  rw [show toString ((10 : Int) - 3) = "7" from by decide] at h
  exact h

/-- C4: when a success stream is configured (`output_file_success` given),
the sockstat ipfrag memory line still goes to the process default `stdout`,
because its `print_sockstat` call site in the source passes no stream
argument — every sibling line, e.g. `ipfragqueues`, goes to the configured
stream.  The first conjunct pins the `type=ipfrag` memory line (occurring
exactly once in the pass) to `stdout`; the second pins `ipfragqueues` to the
configured stream.  The claim that all metric lines, the ipfrag memory one
included, reach the configured success stream thus fails on the code; the
spec itself flags this call site as an oversight. -/
theorem c4_ipfrag_memory_on_default_stream :
    ((parse_and_print_metrics sockstatSample "" 1000 4096 true true).events.filter
        (fun ev => ev.2 == OutLine.sockstatMetric "memory" 1000 "0" " type=ipfrag")) =
      [(OutStream.stdout, OutLine.sockstatMetric "memory" 1000 "0" " type=ipfrag")] ∧
    ((parse_and_print_metrics sockstatSample "" 1000 4096 true true).events.filter
        (fun ev => ev.2 == OutLine.sockstatMetric "ipfragqueues" 1000 "0" "")) =
      [(OutStream.cfgSuccess, OutLine.sockstatMetric "ipfragqueues" 1000 "0" "")] := by
  constructor
  · decide
  · decide

/-- C5: the end-to-end sockstat sample of the spec with page size 4096.  The
complete pass output is listed (first conjunct); it includes the TCP
memory metric valued `10 * 4096 = 40960`, the TCP and UDP `sockets_inuse`
metrics valued `5` and `3`, whose rendered texts are the exact lines of the spec
(middle conjuncts); and it contains no `type=udp` memory line at all — the
optional UDP `mem` field is absent and is skipped silently (last conjunct:
filtering the output for `memory ... type=udp` lines leaves nothing). -/
theorem c5_end_to_end_sample :
    (parse_and_print_metrics sockstatSample "" 1000 4096 false false).events =
      [(OutStream.stdout, OutLine.sockstatMetric "num_sockets" 1000 "5" " type=tcp"),
       (OutStream.stdout, OutLine.sockstatMetric "num_timewait" 1000 "2" ""),
       (OutStream.stdout, OutLine.sockstatMetric "sockets_inuse" 1000 "5" " type=tcp"),
       (OutStream.stdout, OutLine.sockstatMetric "sockets_inuse" 1000 "3" " type=udp"),
       (OutStream.stdout, OutLine.sockstatMetric "sockets_inuse" 1000 "0" " type=raw"),
       (OutStream.stdout, OutLine.sockstatMetric "num_orphans" 1000 "1" ""),
       (OutStream.stdout, OutLine.sockstatMetric "memory" 1000 "40960" " type=tcp"),
       (OutStream.stdout, OutLine.sockstatMetric "memory" 1000 "0" " type=ipfrag"),
       (OutStream.stdout, OutLine.sockstatMetric "ipfragqueues" 1000 "0" "")] ∧
    render (OutLine.sockstatMetric "memory" 1000 "40960" " type=tcp") =
      "net.sockstat.memory 1000 40960 type=tcp" ∧
    render (OutLine.sockstatMetric "sockets_inuse" 1000 "5" " type=tcp") =
      "net.sockstat.sockets_inuse 1000 5 type=tcp" ∧
    render (OutLine.sockstatMetric "sockets_inuse" 1000 "3" " type=udp") =
      "net.sockstat.sockets_inuse 1000 3 type=udp" ∧
    ((parse_and_print_metrics sockstatSample "" 1000 4096 false false).events.filter
        (fun ev =>
          match ev.2 with
          | OutLine.sockstatMetric metric _ _ tags =>
              metric == "memory" && tags == " type=udp"
          | _ => false)) = [] := by
  refine ⟨by decide, by decide, by decide, by decide, by decide⟩

/-- C6: a netstat line whose first token is outside the section-header table
(and is not `"MPTcpExt:"`) contributes exactly one warning line to the error
stream and leaves the grouped sections — from which all success-stream
netstat output is computed — exactly as they would be without the line; a
`"MPTcpExt:"` line is skipped with no output at all. -/
theorem c6_unknown_header_single_warning (fc : String) (ed : OutStream)
    (l : String) (rest : List String) (d : SectionsDict) (t0 : String)
    (tr : List String) (h1 : tokens l = t0 :: tr) :
    (lookupType t0 = none → t0 ≠ "MPTcpExt:" →
      ∃ es d2 ex, netstatGroup fc ed rest d = (es, d2, ex) ∧
        netstatGroup fc ed (l :: rest) d =
          ((ed, OutLine.errText (unrecogMsg (t0 :: tr) fc)) :: es, d2, ex)) ∧
    (t0 = "MPTcpExt:" →
      netstatGroup fc ed (l :: rest) d = netstatGroup fc ed rest d) := by
  constructor
  · intro h2 h3
    rcases h4 : netstatGroup fc ed rest d with ⟨es, d2, ex⟩
    refine ⟨es, d2, ex, rfl, ?_⟩
    simp only [netstatGroup, h1]
    rw [if_neg h3]
    simp only [h2, h4]
  · intro h3
    simp only [netstatGroup, h1]
    rw [if_pos h3]

/-- C6 witness: a concrete unknown header `"Foo:"` yields exactly its one
warning event; a concrete `"MPTcpExt:"` line yields nothing. -/
theorem c6_witness :
    (∃ es d2 ex, netstatGroup "Foo: 1\n" OutStream.stderr [] [] = (es, d2, ex) ∧
      netstatGroup "Foo: 1\n" OutStream.stderr ["Foo: 1"] [] =
        ((OutStream.stderr, OutLine.errText (unrecogMsg ["Foo:", "1"] "Foo: 1\n")) :: es,
          d2, ex)) ∧
    netstatGroup "x" OutStream.stderr ["MPTcpExt: 1 2"] [] =
      netstatGroup "x" OutStream.stderr [] [] := by
  have h := c6_unknown_header_single_warning "Foo: 1\n" OutStream.stderr "Foo: 1"
    [] [] "Foo:" ["1"] (by decide)
  have h2 := c6_unknown_header_single_warning "x" OutStream.stderr "MPTcpExt: 1 2"
    [] [] "MPTcpExt:" ["1", "2"] (by decide)
  exact ⟨h.1 (by decide) (by decide), h2.2 rfl⟩

/-- C7: failing to open the source files at startup terminates the process
with the "do not restart" exit code 13 before any pass runs; the
parent-process-died path instead exits with code 1; and the code 13 outcome
is distinct from that exit and from every crash outcome. -/
theorem c7_exit_code_contract (env env2 : Env) (fuel : Nat)
    (h1 : env.openOk = false) (h2 : env2.openOk = true)
    (h3 : env2.ppidIsOne 0 = true) :
    mainOutcome env fuel = some (MainOutcome.exitCode 13) ∧
    mainOutcome env2 (fuel + 1) = some (MainOutcome.exitCode 1) ∧
    MainOutcome.exitCode 13 ≠ MainOutcome.exitCode 1 ∧
    ∀ e, MainOutcome.exitCode 13 ≠ MainOutcome.crashed e := by
  refine ⟨by simp [mainOutcome, h1], ?_, by decide,
    fun e h => MainOutcome.noConfusion h⟩
  have hi : loopIter env2 0 = IterResult.terminated (MainOutcome.exitCode 1) := by
    simp only [loopIter]
    rw [if_pos h3]
  rw [mainOutcome, if_pos h2]
  exact loopRun_stop env2 0 fuel _ hi

/-- C7 witness: the two exits at concrete runs. -/
theorem c7_witness :
    mainOutcome envOpenFail 0 = some (MainOutcome.exitCode 13) ∧
    mainOutcome envParentDead 1 = some (MainOutcome.exitCode 1) := by
  have h := c7_exit_code_contract envOpenFail envParentDead 0 rfl rfl rfl
  exact ⟨h.1, h.2.1⟩

/-- C8: every line printed during one call of `parse_and_print_metrics`
either has no timestamp field (it is error-stream text) or carries exactly
the timestamp `ts` of that pass — so all metric lines of a pass, both
sockstat- and netstat-derived, share the single timestamp captured at the
start of the pass. -/
theorem c8_uniform_pass_timestamp (sock net : String) (ts : Int) (ps : Nat)
    (b1 b2 : Bool) (ev : Event)
    (h : ev ∈ (parse_and_print_metrics sock net ts ps b1 b2).events) :
    lineTs ev.2 = none ∨ lineTs ev.2 = some ts := by
  rcases hm : matchSockstat sock with _ | m
  · rw [pass_badsock_eq sock net ts ps b1 b2 hm] at h
    simp only [List.mem_singleton] at h
    subst h
    left; rfl
  · rcases hG : netstatGroup net (resolveError b2) (pySplitlines net) []
        with ⟨ges, d, gex⟩
    rcases gex with _ | e
    · rcases hE : processSections ts (resolveSuccess b1) d with ⟨ees, ex⟩
      rw [pass_ok_eq sock net ts ps b1 b2 m ges d ees ex hm hG hE] at h
      rcases List.mem_append.mp h with h2 | h2
      · rcases List.mem_append.mp h2 with h3 | h3
        · right; exact mem_sockstatEvents_ts ts m ps _ ev h3
        · obtain ⟨s, hs⟩ := netstatGroup_events_errText net (resolveError b2)
            (pySplitlines net) [] ev (by rw [hG]; exact h3)
          left; rw [hs]; rfl
      · right; exact mem_processSections_ts ts _ d ev (by rw [hE]; exact h2)
    · rw [pass_groupexc_eq sock net ts ps b1 b2 m ges d e hm hG] at h
      rcases List.mem_append.mp h with h2 | h2
      · right; exact mem_sockstatEvents_ts ts m ps _ ev h2
      · obtain ⟨s, hs⟩ := netstatGroup_events_errText net (resolveError b2)
          (pySplitlines net) [] ev (by rw [hG]; exact h2)
        left; rw [hs]; rfl

/-- C8 witness: a concrete metric line of the sample pass carries the pass
timestamp. -/
theorem c8_witness :
    lineTs (OutLine.sockstatMetric "num_sockets" 1000 "5" " type=tcp") = none ∨
    lineTs (OutLine.sockstatMetric "num_sockets" 1000 "5" " type=tcp") = some 1000 :=
  c8_uniform_pass_timestamp sockstatSample "" 1000 4096 false false
    (OutStream.stdout, OutLine.sockstatMetric "num_sockets" 1000 "5" " type=tcp")
    (by decide)

/-- C9: netstat content containing a line with zero whitespace-delimited
tokens makes the grouping loop index into an empty token list (`line[0]`):
`parse_and_print_metrics` raises `IndexError` instead of skipping the line,
the exception escapes uncaught, and the daemon terminates — the loop
performs no further pass. -/
theorem c9_empty_line_crashes_daemon (env : Env) (n fuel : Nat)
    (hp : env.ppidIsOne n = false)
    (hm : (matchSockstat (env.sockstatAt n)).isSome = true)
    (he : ∃ l ∈ pySplitlines (env.netstatAt n), tokens l = []) :
    (parse_and_print_metrics (env.sockstatAt n) (env.netstatAt n) (env.timeAt n)
        env.pageSize false false).exc = some Exc.indexError ∧
    loopIter env n = IterResult.terminated (MainOutcome.crashed Exc.indexError) ∧
    loopRun env n (fuel + 1) = some (MainOutcome.crashed Exc.indexError) := by
  rcases hmm : matchSockstat (env.sockstatAt n) with _ | m
  · rw [hmm] at hm; cases hm
  · have hexc := netstatGroup_exc_of_empty_line (env.netstatAt n) (resolveError false)
      (pySplitlines (env.netstatAt n)) [] he
    rcases hG : netstatGroup (env.netstatAt n) (resolveError false)
        (pySplitlines (env.netstatAt n)) [] with ⟨ges, d, gex⟩
    rw [hG] at hexc
    have hexc2 : gex = some Exc.indexError := hexc
    subst hexc2
    have hx : (parse_and_print_metrics (env.sockstatAt n) (env.netstatAt n)
        (env.timeAt n) env.pageSize false false).exc = some Exc.indexError := by
      rw [pass_groupexc_eq (env.sockstatAt n) (env.netstatAt n) (env.timeAt n)
        env.pageSize false false m ges d Exc.indexError hmm hG]
    have hi := loopIter_crash env n Exc.indexError hp hx
    exact ⟨hx, hi, loopRun_stop env n fuel _ hi⟩

/-- C9 witness: a run whose netstat file has a trailing empty line crashes
during its first pass. -/
theorem c9_witness :
    (parse_and_print_metrics (envEmptyLine.sockstatAt 0) (envEmptyLine.netstatAt 0)
        (envEmptyLine.timeAt 0) envEmptyLine.pageSize false false).exc =
      some Exc.indexError ∧
    loopIter envEmptyLine 0 = IterResult.terminated (MainOutcome.crashed Exc.indexError) ∧
    loopRun envEmptyLine 0 1 = some (MainOutcome.crashed Exc.indexError) :=
  c9_empty_line_crashes_daemon envEmptyLine 0 0 rfl (by decide) (by decide)

/-- C10 counterexample: netstat content with header/data pairs for the
aliased raw headers `TcpExt:` and `Tcp:`, preceded by an intact `Udp:`
section.  The `"tcp"` logical section indeed accumulates four lines
(conjunct 1) and the assertion fails (conjunct 2) — but the claim that the
pass then emits no netstat metrics is false: the `"udp"` section, iterated
before `"tcp"`, has already emitted its metric when the assertion fires
(conjunct 3). -/
theorem c10_counterexample :
    (netstatGroup netstatAliasSample OutStream.stderr
        (pySplitlines netstatAliasSample) []).2.1 =
      [("udp", [["InErrs"], ["5"]]),
       ("tcp", [["ListenDrops"], ["7"], ["OutRsts"], ["1"]])] ∧
    (parse_and_print_metrics sockstatSample netstatAliasSample 1000 4096
        false false).exc = some Exc.assertionError ∧
    (OutStream.stdout, OutLine.netstatMetric "udp" "errors" 1000 "5"
        (some "direction=in")) ∈
      (parse_and_print_metrics sockstatSample netstatAliasSample 1000 4096
        false false).events := by
  refine ⟨by decide, by decide, by decide⟩

/-- C10 (amended): `Tcp:` and `TcpExt:` both fold into `"tcp"` (and `Ip:`,
`IpExt:` into `"ip"`); a logical section that accumulated four lines fails
the exactly-two-lines assertion, and the emission loop aborts right there —
the offending section and every later one emit nothing, while sections
earlier in insertion order keep the metrics they already emitted. -/
theorem c10_amended_alias_aborts_emission :
    (lookupType "Tcp:" = some "tcp" ∧ lookupType "TcpExt:" = some "tcp" ∧
     lookupType "Ip:" = some "ip" ∧ lookupType "IpExt:" = some "ip") ∧
    (∀ (ts : Int) (st : String) (ls : List (List String)) (dest : OutStream),
      ls.length = 4 →
      processSection ts st ls dest = Except.error Exc.assertionError) ∧
    (∀ (ts : Int) (dest : OutStream) (d1 : SectionsDict) (sec : String)
      (ss : List (List String)) (d2 : SectionsDict) (evs1 : List Event),
      processSections ts dest d1 = (evs1, none) → ss.length = 4 →
      processSections ts dest (d1 ++ (sec, ss) :: d2) =
        (evs1, some Exc.assertionError)) := by
  refine ⟨by decide, ?_, ?_⟩
  · intro ts st ls dest h
    exact processSection_not_two ts st ls dest (by omega)
  · intro ts dest d1 sec ss d2 evs1 hone h4
    exact processSections_abort_at ts dest d1 sec ss d2 evs1 hone (by omega)

/-- C10 witness: the four-line `"tcp"` section fails the assertion, and with
an intact `"udp"` section inserted before it, the emission stops after the
udp metric. -/
theorem c10_witness :
    processSection 1000 "tcp" [["ListenDrops"], ["7"], ["OutRsts"], ["1"]]
        OutStream.stdout = Except.error Exc.assertionError ∧
    processSections 1000 OutStream.stdout
        [("udp", [["InErrs"], ["5"]]),
         ("tcp", [["ListenDrops"], ["7"], ["OutRsts"], ["1"]])] =
      ([(OutStream.stdout, OutLine.netstatMetric "udp" "errors" 1000 "5"
          (some "direction=in"))], some Exc.assertionError) := by
  have h := c10_amended_alias_aborts_emission
  refine ⟨h.2.1 1000 "tcp" _ OutStream.stdout (by decide), ?_⟩
  have h2 := h.2.2 1000 OutStream.stdout [("udp", [["InErrs"], ["5"]])] "tcp"
    [["ListenDrops"], ["7"], ["OutRsts"], ["1"]] []
    [(OutStream.stdout, OutLine.netstatMetric "udp" "errors" 1000 "5"
      (some "direction=in"))] (by decide) (by decide)
  simpa using h2

end Netstat
